import Mathlib

/-!
Verification of `mne/datasets/sleep_physionet/_utils.py`: a shallow embedding
of the module's path handling, file fetching, subject validation and metadata
pipelines, with theorems settling the specification's claims about them.

Conventions of the embedding:
* the filesystem is an explicit state (`FsState`): a list of (path, content)
  files, a list of directories, and a counter of network requests made so far;
* the network is an oracle `String → Option String` from URL to the bytes
  received (`none` models an unreachable resource), and SHA1 is an abstract
  hash oracle `String → String`;
* fallible operations return `Except`/`Option`, a raised Python exception
  being the `error`/`none` branch;
* the `pandas` library is an external dependency: its spreadsheet parsing and
  reshaping steps are abstracted as environment-provided outcomes, while the
  module's own row-level transformations are embedded directly.
-/

namespace SleepPhysionet

/-- `os.path.join a b` for the relative joins this module performs. -/
def pathJoin (a b : String) : String := a ++ "/" ++ b

/-- `os.path.dirname`: the path up to (excluding) the final slash. -/
def dirname (p : String) : String := String.intercalate "/" ((p.splitOn "/").dropLast)

/-- `BASE_URL` of the module. -/
def baseUrl : String := "https://physionet.org/pn4/sleep-edfx/"

/-- The filesystem and network-effect state threaded through `_fetch_one`:
the files present (path with content), the directories present, and how many
network requests have been issued. -/
structure FsState where
  files : List (String × String)
  dirs : List String
  netCalls : Nat
deriving DecidableEq

/-- `os.path.isfile`. -/
def isfile (st : FsState) (p : String) : Bool := st.files.any (fun e => e.1 == p)

/-- `os.path.isdir`. -/
def isdir (st : FsState) (p : String) : Bool := st.dirs.contains p

/-- `os.remove`. -/
def removeFile (st : FsState) (p : String) : FsState :=
  { st with files := st.files.filter (fun e => !(e.1 == p)) }

/-- `os.makedirs`. -/
def makedirs (st : FsState) (p : String) : FsState := { st with dirs := p :: st.dirs }

/-- The failures `_fetch_file` surfaces. -/
inductive FetchErr where
  | transport
  | integrity
deriving DecidableEq

/-- Modelled from the spec: `_fetch_file` (in `mne.utils`, not part of src/)
issues one network request for `url`; on success it verifies the received
bytes against the expected SHA1 `hashsum` and installs them at `dest` only
when the checksum matches, raising an integrity error otherwise (the spec:
"Fails with an integrity error if the checksum does not match", "no
partial-file is left in place"); an unreachable resource raises a
transport error. -/
def fetchFile (net : String → Option String) (hashFn : String → String)
    (url dest hashsum : String) (st : FsState) : FsState × Option FetchErr :=
  match net url with
  | none => ({ st with netCalls := st.netCalls + 1 }, some FetchErr.transport)
  | some content =>
    if hashFn content = hashsum then
      ({ st with netCalls := st.netCalls + 1, files := (dest, content) :: st.files }, none)
    else ({ st with netCalls := st.netCalls + 1 }, some FetchErr.integrity)

/-- Lines 24-27 of `_fetch_one` before the download: remove any existing
file at the destination and create the parent directory if absent. -/
def prepareDest (st : FsState) (dest : String) : FsState :=
  if isfile st dest then
    if !(isdir (removeFile st dest) (dirname dest)) then
      makedirs (removeFile st dest) (dirname dest)
    else removeFile st dest
  else
    if !(isdir st (dirname dest)) then makedirs st (dirname dest) else st

/-- `_fetch_one fname hashsum path force_update`: skip when a file already
sits at `path/fname` and no force is requested; otherwise remove any stale
copy, create the parent directory if needed, and download with checksum
verification. Returns the destination path on success. -/
def fetchOne (net : String → Option String) (hashFn : String → String)
    (fname hashsum path : String) (forceUpdate : Bool) (st : FsState) :
    FsState × Except FetchErr String :=
  if !(isfile st (pathJoin path fname)) || forceUpdate then
    match fetchFile net hashFn (baseUrl ++ "/" ++ fname) (pathJoin path fname) hashsum
        (prepareDest st (pathJoin path fname)) with
    | (st3, none) => (st3, Except.ok (pathJoin path fname))
    | (st3, some e) => (st3, Except.error e)
  else (st, Except.ok (pathJoin path fname))

/-- `np.setdiff1d(subjects, np.arange(n_subjects))`: the requested indices
outside `[0, n)`, sorted ascending with duplicates removed. -/
def offenders (subjects : List Int) (nSubjects : Nat) : List Int :=
  (List.insertionSort (fun a b => a ≤ b)
    (subjects.filter (fun s => !(decide (0 ≤ s ∧ s < (nSubjects : Int)))))).dedup

/-- `_check_subjects subjects n_subjects`: `none` when every requested index
is valid, `some message` for the `ValueError` raised otherwise. -/
def checkSubjects (subjects : List Int) (nSubjects : Nat) : Option String :=
  let unknown := offenders subjects nSubjects
  if unknown.isEmpty then none
  else some ("Only subjects 0 to " ++ toString ((nSubjects : Int) - 1) ++
    " are available from this dataset. Unknown subjects: " ++
    String.intercalate ", " (unknown.map toString))

/-- The labels a sex code is recoded to. `rename_categories` leaves a code
outside the mapping unchanged, which `code` preserves. -/
inductive SexLabel where
  | female
  | male
  | code (c : Int)
deriving DecidableEq

/-- The age variant's recoding of the numeric sex field
(`_update_sleep_age_records`, the mapping 1 to female and 2 to male). -/
def ageSexRecode (c : Int) : SexLabel :=
  if c = 1 then SexLabel.female else if c = 2 then SexLabel.male else SexLabel.code c

/-- The temazepam variant's recoding of the numeric sex field
(`_update_sleep_temazepam_records`, the mapping 1 to male and 2 to female). -/
def tzSexRecode (c : Int) : SexLabel :=
  if c = 1 then SexLabel.male else if c = 2 then SexLabel.female else SexLabel.code c

/-- Splitting a character list at every occurrence of the separator `c`,
keeping empty pieces, as Python splits a string on a one-character
separator. -/
def splitCharAux (c : Char) : List Char → List (List Char)
  | [] => [[]]
  | x :: xs =>
    if x = c then [] :: splitCharAux c xs
    else
      match splitCharAux c xs with
      | [] => [[x]]
      | y :: ys => (x :: y) :: ys

/-- String split on a one-character separator. -/
def splitOnChar (c : Char) (s : String) : List String :=
  (splitCharAux c s.data).map String.mk

/-- Whether `p` is an initial segment of `s` (Python `str.startswith`). -/
def strHeadIs (s p : String) : Bool := s.take p.length == p

/-- Whether `p` is a final segment of `s` (Python `str.endswith`). -/
def strTailIs (s p : String) : Bool :=
  String.mk (s.data.drop (s.data.length - p.data.length)) == p

/-- `Series.str.split(expand=True)[0]`: the first whitespace-delimited token,
`none` when the string holds no token (pandas then leaves a missing value). -/
def firstToken (s : String) : Option String :=
  ((splitOnChar ' ' s).filter (fun t => !(t == ""))).head?

/-- One row of the temazepam table as it stands after the merge and unstack
(line 133 of the source), before the final column rewrites. A `none` field is
a missing value (NaN): the outer merge leaves spreadsheet fields missing on
manifest-only rows and file fields missing where a record type is absent.
The two record types the dataset carries (PSG, Hypnogram) give the four
unstacked file columns. -/
structure TzRowIn where
  subject : Option Int
  age : Option Int
  sexCode : Option Int
  drug : Option String
  lightsOff : Option String
  nightNr : Option Int
  shaPsg : Option String
  fnamePsg : Option String
  shaHyp : Option String
  fnameHyp : Option String
deriving DecidableEq

/-- One row of the temazepam table as written to CSV: `subject` has been
reassigned from the row position and is never missing, `subject_orig` keeps
the source subject number. -/
structure TzRowOut where
  subject : Int
  subjectOrig : Option Int
  age : Option Int
  sex : Option SexLabel
  drug : Option String
  lightsOff : Option String
  nightNr : Option Int
  shaPsg : Option String
  fnamePsg : Option String
  shaHyp : Option String
  fnameHyp : Option String
deriving DecidableEq

/-- No field of the row is missing: what `dropna` keeps. (`subject` is an
`Int`, never missing, exactly as the reassigned subject column.) -/
def tzOutComplete (r : TzRowOut) : Bool :=
  r.subjectOrig.isSome && r.age.isSome && r.sex.isSome && r.drug.isSome &&
  r.lightsOff.isSome && r.nightNr.isSome && r.shaPsg.isSome && r.fnamePsg.isSome &&
  r.shaHyp.isSome && r.fnameHyp.isSome

/-- The column rewrites of lines 130-135 applied to the row at position `i`:
sex recoded through `tzSexRecode`, drug cut to its first token,
`subject_orig` saved, `subject` reassigned to `i // 2`. -/
def tzTransform (i : Nat) (r : TzRowIn) : TzRowOut :=
  { subject := (i : Int) / 2
    subjectOrig := r.subject
    age := r.age
    sex := r.sexCode.map tzSexRecode
    drug := r.drug.bind firstToken
    lightsOff := r.lightsOff
    nightNr := r.nightNr
    shaPsg := r.shaPsg
    fnamePsg := r.fnamePsg
    shaHyp := r.shaHyp
    fnameHyp := r.fnameHyp }

/-- A row whose transform survives `dropna` whatever its position (the
reassigned subject never being missing, the position does not matter). -/
def tzInComplete (r : TzRowIn) : Bool := tzOutComplete (tzTransform 0 r)

/-- Lines 130-140 of `_update_sleep_temazepam_records`: the column rewrites
in row order, then `dropna` removing every row with a missing field. The
result is what `to_csv` writes. -/
def temazepamTail (rows : List TzRowIn) : List TzRowOut :=
  ((rows.enum.map (fun p => tzTransform p.1 p.2)).filter tzOutComplete)

/-- One entry of the downloaded SHA1SUMS manifest, as `read_csv` with the
two-space separator and column names sha, fname reads a line. -/
structure ShaEntry where
  sha : String
  fname : String
deriving DecidableEq

/-- The manifest parse: one entry per line that the two-space separator
splits into exactly the two named columns. -/
def parseShaLines (content : String) : List ShaEntry :=
  (content.splitOn "\n").filterMap (fun line =>
    match line.splitOn "  " with
    | [sha, fname] => some { sha := sha, fname := fname }
    | _ => none)

/-- `sha1_df['id']`: the first six characters of the filename. -/
def shaId (e : ShaEntry) : String := e.fname.take 6

/-- The age-variant manifest filter: filenames starting with SC and ending
with edf. -/
def scFilter (l : List ShaEntry) : List ShaEntry :=
  l.filter (fun e => strHeadIs e.fname "SC" && strTailIs e.fname "edf")

/-- One row of the parsed SC-subjects spreadsheet after the column renames:
subject number, night number, age, the numeric sex code, lights-off time. -/
structure AgeSheetRow where
  subject : Nat
  night : Nat
  age : Nat
  sexCode : Int
  lightsOff : Int
deriving DecidableEq

/-- Python `'{0:02d}'.format k` for a natural number: two digits, zero
padded. -/
def fmt02 (k : Nat) : String := if k < 10 then "0" ++ toString k else toString k

/-- `data['id']` of the age variant: `'SC4{0:02d}{1:1d}'.format(subject,
night)`. -/
def ageId (s n : Nat) : String := "SC4" ++ fmt02 s ++ toString n

/-- `record type`: the filename split on the dash, its second part split on
the dot, first piece. -/
def recordTypeOf (fname : String) : String :=
  ((splitOnChar '.' ((splitOnChar '-' fname).getD 1 "")).headD "")

/-- One row of the age-records CSV, columns in the written order. -/
structure AgeRecord where
  subject : Nat
  night : Nat
  recordType : String
  age : Nat
  sex : SexLabel
  lightsOff : Int
  sha : String
  fname : String
deriving DecidableEq

/-- Lines 163-187 of `_update_sleep_age_records`: filter the manifest to SC
edf entries with their 6-character ids, give each spreadsheet row its id,
join on the id (one output row per matching manifest entry; `dropna` removes
the unmatched), recode sex through `ageSexRecode`, derive the record type,
and select the output columns. -/
def ageTable (manifest : List ShaEntry) (sheet : List AgeSheetRow) : List AgeRecord :=
  let shaRows := scFilter manifest
  sheet.flatMap (fun d =>
    (shaRows.filter (fun e => shaId e == ageId d.subject d.night)).map (fun e =>
      { subject := d.subject
        night := d.night
        recordType := recordTypeOf e.fname
        age := d.age
        sex := ageSexRecode d.sexCode
        lightsOff := d.lightsOff
        sha := e.sha
        fname := e.fname }))

/-- A network request the builders issue, with its URL. -/
inductive NetEv where
  | get (url : String)
deriving DecidableEq

/-- The failures a metadata regeneration surfaces. -/
inductive BuildErr where
  | dependencyMissing
  | transport
  | badData
deriving DecidableEq

/-- The external world a run of `_update_sleep_age_records` sees:
whether pandas is installed, the SHA1SUMS download outcome, and the
SC-subjects.xls download/verify/parse outcome (`none` is a raise). -/
structure AgeEnv where
  pandasInstalled : Bool
  sha1Fetch : Option String
  xlsFetch : Option (List AgeSheetRow)

/-- `_update_sleep_age_records` over `env`, run against the CSV currently on
disk (`prev`): the CSV after the run, the network requests issued in order,
and the error raised if any. The source checks pandas first, downloads the
manifest then the spreadsheet into a temporary directory, builds the whole
table in memory, and only then writes it with `to_csv` as its last
statement, so a raise anywhere leaves `prev` in place. -/
def updateSleepAgeRecords (env : AgeEnv) (prev : Option (List AgeRecord)) :
    Option (List AgeRecord) × List NetEv × Option BuildErr :=
  if !env.pandasInstalled then (prev, [], some BuildErr.dependencyMissing)
  else
    match env.sha1Fetch with
    | none => (prev, [NetEv.get (baseUrl ++ "SHA1SUMS")], some BuildErr.transport)
    | some content =>
      match env.xlsFetch with
      | none =>
        (prev, [NetEv.get (baseUrl ++ "SHA1SUMS"), NetEv.get (baseUrl ++ "SC-subjects.xls")],
          some BuildErr.transport)
      | some sheet =>
        (some (ageTable (parseShaLines content) sheet),
          [NetEv.get (baseUrl ++ "SHA1SUMS"), NetEv.get (baseUrl ++ "SC-subjects.xls")],
          none)

/-- The external world a run of `_update_sleep_temazepam_records` sees.
`reshape` abstracts the pandas reading and reshaping of the two downloaded
artifacts (lines 103-129: `read_csv`, `read_excel`, stack, merge, unstack)
into the pre-rewrite rows; `none` is a raise inside those library calls. -/
structure TzEnv where
  pandasInstalled : Bool
  sha1Fetch : Option String
  xlsFetch : Option String
  reshape : String → String → Option (List TzRowIn)

/-- `_update_sleep_temazepam_records` over `env`, against the CSV on disk:
pandas check first, the two downloads in source order, the pandas reshaping,
then the row rewrites and `dropna` of `temazepamTail`, and the `to_csv`
write only as the final step of a run that raised nothing. -/
def updateSleepTemazepamRecords (env : TzEnv) (prev : Option (List TzRowOut)) :
    Option (List TzRowOut) × List NetEv × Option BuildErr :=
  if !env.pandasInstalled then (prev, [], some BuildErr.dependencyMissing)
  else
    match env.sha1Fetch with
    | none => (prev, [NetEv.get (baseUrl ++ "SHA1SUMS")], some BuildErr.transport)
    | some content =>
      match env.xlsFetch with
      | none =>
        (prev, [NetEv.get (baseUrl ++ "SHA1SUMS"), NetEv.get (baseUrl ++ "ST-subjects.xls")],
          some BuildErr.transport)
      | some xls =>
        match env.reshape content xls with
        | none =>
          (prev, [NetEv.get (baseUrl ++ "SHA1SUMS"), NetEv.get (baseUrl ++ "ST-subjects.xls")],
            some BuildErr.badData)
        | some rows =>
          (some (temazepamTail rows),
            [NetEv.get (baseUrl ++ "SHA1SUMS"), NetEv.get (baseUrl ++ "ST-subjects.xls")],
            none)

/-- Modelled from the spec: `_get_path` (in `mne.datasets.utils`, not part of
src/) resolves the cache root in the order explicit argument, then the
environment variable, then the persisted configuration value, then the
default user-data directory under the home directory (the spec: "Resolution
order: explicit argument, named environment/config variable, default
user-data directory"; the default is the mne_data directory in home). -/
def getPath (explicitPath envOverride configValue : Option String) (home : String) : String :=
  match explicitPath with
  | some p => p
  | none =>
    match envOverride with
    | some p => p
    | none =>
      match configValue with
      | some p => p
      | none => pathJoin home "mne_data"

/-- `_data_path`: the resolved cache root with the fixed subdirectory name
appended. -/
def dataPath (explicitPath envOverride configValue : Option String) (home : String) : String :=
  pathJoin (getPath explicitPath envOverride configValue home) "physionet-sleep-data"

lemma mem_offenders (S : List Int) (n : Nat) (x : Int) :
    x ∈ offenders S n ↔ x ∈ S ∧ (x < 0 ∨ (n : Int) ≤ x) := by
  unfold offenders
  rw [List.mem_dedup, (List.perm_insertionSort _ _).mem_iff, List.mem_filter]
  simp only [Bool.not_eq_true', decide_eq_false_iff_not, not_and, not_lt]
  constructor
  · rintro ⟨h1, h2⟩
    refine ⟨h1, ?_⟩
    by_cases hx : x < 0
    · exact Or.inl hx
    · exact Or.inr (h2 (by omega))
  · rintro ⟨h1, h2⟩
    exact ⟨h1, fun h0 => by omega⟩

lemma offenders_empty_iff (S : List Int) (n : Nat) :
    (offenders S n).isEmpty = true ↔ ∀ s ∈ S, 0 ≤ s ∧ s < (n : Int) := by
  rw [List.isEmpty_iff, List.eq_nil_iff_forall_not_mem]
  constructor
  · intro h s hs
    by_contra hc
    exact h s ((mem_offenders S n s).mpr ⟨hs, by omega⟩)
  · intro h x hx
    obtain ⟨hxS, hout⟩ := (mem_offenders S n x).mp hx
    have := h x hxS
    omega

/-- C3: `_check_subjects` raises exactly when some requested index lies
outside `[0, n_subjects)`, and returns quietly (no exception, no other
effect) exactly when every requested index is in range, the empty request
included. -/
theorem checkSubjects_valid_iff (S : List Int) (n : Nat) :
    ((checkSubjects S n).isSome = true ↔ ∃ s ∈ S, s < 0 ∨ (n : Int) ≤ s) ∧
    (checkSubjects S n = none ↔ ∀ s ∈ S, 0 ≤ s ∧ s < (n : Int)) := by
  unfold checkSubjects
  by_cases h : (offenders S n).isEmpty
  · rw [if_pos h]
    have hall := (offenders_empty_iff S n).mp h
    constructor
    · constructor
      · intro hc
        simp at hc
      · rintro ⟨s, hs, hout⟩
        have h2 := hall s hs
        exact absurd hout (by omega)
    · exact ⟨fun _ => hall, fun _ => rfl⟩
  · rw [if_neg h]
    constructor
    · constructor
      · intro _
        have h2 : ¬ ∀ s ∈ S, 0 ≤ s ∧ s < (n : Int) :=
          fun hall => h ((offenders_empty_iff S n).mpr hall)
        push_neg at h2
        obtain ⟨s, hs, hout⟩ := h2
        exact ⟨s, hs, by omega⟩
      · intro _
        rfl
    · constructor
      · intro hc
        exact absurd hc (by simp)
      · intro hall
        exact absurd ((offenders_empty_iff S n).mpr hall) h

/-- C3 run at a concrete input: every index of `[2, 7]` lies in `[0, 9)`, so
the validator returns quietly. -/
theorem checkSubjects_valid_iff_run :
    (((checkSubjects [2, 7] 9).isSome = true ↔ ∃ s ∈ [(2 : Int), 7], s < 0 ∨ ((9 : Nat) : Int) ≤ s) ∧
     (checkSubjects [2, 7] 9 = none ↔ ∀ s ∈ [(2 : Int), 7], 0 ≤ s ∧ s < ((9 : Nat) : Int))) :=
  checkSubjects_valid_iff [2, 7] 9

/-- C4: whenever `_check_subjects` raises, its message is the fixed sentence
carrying the enumeration of exactly the offending requested indices: each
appears once (the list is strictly ascending, so duplicate-free), in
ascending order, joined by a comma and space, and nothing in range is
enumerated. -/
theorem checkSubjects_message_enumerates (S : List Int) (n : Nat) (msg : String)
    (h : checkSubjects S n = some msg) :
    ∃ l : List Int,
      msg = "Only subjects 0 to " ++ toString ((n : Int) - 1) ++
        " are available from this dataset. Unknown subjects: " ++
        String.intercalate ", " (l.map toString) ∧
      List.Pairwise (fun a b => a < b) l ∧
      (∀ x : Int, x ∈ l ↔ x ∈ S ∧ (x < 0 ∨ (n : Int) ≤ x)) := by
  refine ⟨offenders S n, ?_, ?_, mem_offenders S n⟩
  · unfold checkSubjects at h
    by_cases he : (offenders S n).isEmpty
    · rw [if_pos he] at h
      exact absurd h (by simp)
    · rw [if_neg he] at h
      exact (Option.some.inj h).symm
  · unfold offenders
    have hle : List.Pairwise (fun a b : Int => a ≤ b)
        (List.insertionSort (fun a b => a ≤ b)
          (S.filter (fun s => !(decide (0 ≤ s ∧ s < (n : Int)))))).dedup :=
      List.Pairwise.sublist (List.dedup_sublist _)
        (List.sorted_insertionSort (fun a b => a ≤ b) _)
    have hne := List.nodup_dedup
      (List.insertionSort (fun a b => a ≤ b)
        (S.filter (fun s => !(decide (0 ≤ s ∧ s < (n : Int))))))
    exact (hle.and hne).imp (fun hab => lt_of_le_of_ne hab.1 hab.2)

/-- C4 run at a concrete input: the request `[5, -1, 5]` against 3 subjects
raises with the offenders `-1, 5` enumerated sorted and de-duplicated. -/
theorem checkSubjects_message_enumerates_run :
    ∃ l : List Int,
      "Only subjects 0 to 2 are available from this dataset. Unknown subjects: -1, 5" =
        "Only subjects 0 to " ++ toString (((3 : Nat) : Int) - 1) ++
        " are available from this dataset. Unknown subjects: " ++
        String.intercalate ", " (l.map toString) ∧
      List.Pairwise (fun a b : Int => a < b) l ∧
      (∀ x : Int, x ∈ l ↔ x ∈ [(5 : Int), -1, 5] ∧ (x < 0 ∨ ((3 : Nat) : Int) ≤ x)) :=
  checkSubjects_message_enumerates [5, -1, 5] 3
    "Only subjects 0 to 2 are available from this dataset. Unknown subjects: -1, 5"
    (by rfl)

lemma isfile_removeFile (st : FsState) (p : String) :
    isfile (removeFile st p) p = false := by
  have hl : ∀ l : List (String × String),
      ((l.filter (fun e => !(e.1 == p))).any (fun e => e.1 == p)) = false := by
    intro l
    induction l with
    | nil => rfl
    | cons a t ih =>
      by_cases hp : (a.1 == p) = true
      · simp [List.filter_cons, hp, ih]
      · rw [Bool.not_eq_true] at hp
        simp [List.filter_cons, hp, ih]
  exact hl st.files

lemma fetchFile_none (net : String → Option String) (hashFn : String → String)
    (url dest hashsum : String) (st : FsState) (h : net url = none) :
    fetchFile net hashFn url dest hashsum st =
      ({ st with netCalls := st.netCalls + 1 }, some FetchErr.transport) := by
  simp [fetchFile, h]

lemma fetchFile_goodHash (net : String → Option String) (hashFn : String → String)
    (url dest hashsum : String) (st : FsState) (content : String)
    (h : net url = some content) (hh : hashFn content = hashsum) :
    fetchFile net hashFn url dest hashsum st =
      ({ st with netCalls := st.netCalls + 1, files := (dest, content) :: st.files }, none) := by
  simp [fetchFile, h, hh]

lemma fetchFile_badHash (net : String → Option String) (hashFn : String → String)
    (url dest hashsum : String) (st : FsState) (content : String)
    (h : net url = some content) (hh : ¬ hashFn content = hashsum) :
    fetchFile net hashFn url dest hashsum st =
      ({ st with netCalls := st.netCalls + 1 }, some FetchErr.integrity) := by
  simp [fetchFile, h, hh]

lemma isfile_makedirs (st : FsState) (p d : String) :
    isfile (makedirs st d) p = isfile st p := rfl

lemma isfile_prepareDest (st : FsState) (p : String) :
    isfile (prepareDest st p) p = false := by
  unfold prepareDest
  by_cases hf : isfile st p
  · rw [if_pos hf]
    by_cases hd : isdir (removeFile st p) (dirname p)
    · rw [hd]
      simpa using isfile_removeFile st p
    · rw [Bool.not_eq_true] at hd
      rw [hd]
      simp only [Bool.not_false, if_true]
      rw [isfile_makedirs]
      exact isfile_removeFile st p
  · rw [Bool.not_eq_true] at hf
    rw [hf, if_neg (by simp)]
    by_cases hd : isdir st (dirname p)
    · rw [hd]
      simpa using hf
    · rw [Bool.not_eq_true] at hd
      rw [hd]
      simp only [Bool.not_false, if_true]
      rw [isfile_makedirs]
      exact hf

lemma fetchOne_ok_isfile (net : String → Option String) (hashFn : String → String)
    (fname hashsum path : String) (st st' : FsState) (d : String)
    (h : fetchOne net hashFn fname hashsum path false st = (st', Except.ok d)) :
    d = pathJoin path fname ∧ isfile st' (pathJoin path fname) = true := by
  unfold fetchOne at h
  by_cases hf : isfile st (pathJoin path fname)
  · rw [hf] at h
    simp only [Bool.not_true, Bool.false_or, Bool.false_eq_true, if_false, Prod.mk.injEq,
      Except.ok.injEq] at h
    exact ⟨h.2.symm, h.1 ▸ hf⟩
  · rw [Bool.not_eq_true] at hf
    rw [hf] at h
    simp only [Bool.not_false, Bool.true_or, if_true] at h
    cases hnet : net (baseUrl ++ "/" ++ fname) with
    | none =>
      rw [fetchFile_none _ _ _ _ _ _ hnet] at h
      simp at h
    | some content =>
      by_cases hh : hashFn content = hashsum
      · rw [fetchFile_goodHash _ _ _ _ _ _ _ hnet hh] at h
        simp only [Prod.mk.injEq, Except.ok.injEq] at h
        refine ⟨h.2.symm, ?_⟩
        rw [← h.1]
        simp [isfile]
      · rw [fetchFile_badHash _ _ _ _ _ _ _ hnet hh] at h
        simp at h

/-- C1: with `force_update=false` and a file already at `path/fname`,
`_fetch_one` returns that destination path with the state untouched: no
network request (the call counter is part of the state), no filesystem
change, no re-verification of the existing content. In particular, after any
successful `force_update=false` call the destination file exists, so a
second call returns the same path with zero further network requests. -/
theorem fetchOne_cached_noop (net : String → Option String) (hashFn : String → String)
    (fname hashsum path : String) (st : FsState)
    (h : isfile st (pathJoin path fname) = true) :
    fetchOne net hashFn fname hashsum path false st = (st, Except.ok (pathJoin path fname)) ∧
    (∀ (st0 st1 : FsState) (d : String),
      fetchOne net hashFn fname hashsum path false st0 = (st1, Except.ok d) →
      fetchOne net hashFn fname hashsum path false st1 = (st1, Except.ok d)) := by
  constructor
  · unfold fetchOne
    rw [h]
    simp
  · intro st0 st1 d hok
    obtain ⟨hd, hfile⟩ := fetchOne_ok_isfile net hashFn fname hashsum path st0 st1 d hok
    subst hd
    unfold fetchOne
    rw [hfile]
    simp

/-- A state with one cached file, for running C1. -/
def c1State : FsState :=
  { files := [("data/SC4001E0-PSG.edf", "edfbytes")], dirs := ["data"], netCalls := 0 }

/-- C1 run at a concrete input: the cached file is returned as-is and a
repeated call is a no-op. -/
theorem fetchOne_cached_noop_run :
    fetchOne (fun _ => none) (fun _ => "h") "SC4001E0-PSG.edf" "h" "data" false c1State =
      (c1State, Except.ok (pathJoin "data" "SC4001E0-PSG.edf")) ∧
    (∀ (st0 st1 : FsState) (d : String),
      fetchOne (fun _ => none) (fun _ => "h") "SC4001E0-PSG.edf" "h" "data" false st0 =
        (st1, Except.ok d) →
      fetchOne (fun _ => none) (fun _ => "h") "SC4001E0-PSG.edf" "h" "data" false st1 =
        (st1, Except.ok d)) :=
  fetchOne_cached_noop (fun _ => none) (fun _ => "h") "SC4001E0-PSG.edf" "h" "data" c1State
    (by rfl)

/-- C2: when the downloaded bytes do not hash to the expected checksum and a
download is attempted (no cached file, or forced), `_fetch_one` raises the
integrity error and the destination file is absent afterwards — a subsequent
`force_update=false` call would not treat anything there as a valid cached
copy. -/
theorem fetchOne_integrity_raises (net : String → Option String) (hashFn : String → String)
    (fname hashsum path : String) (force : Bool) (st : FsState) (content : String)
    (hbranch : isfile st (pathJoin path fname) = false ∨ force = true)
    (hnet : net (baseUrl ++ "/" ++ fname) = some content)
    (hbad : ¬ hashFn content = hashsum) :
    ∃ st' : FsState,
      fetchOne net hashFn fname hashsum path force st = (st', Except.error FetchErr.integrity) ∧
      isfile st' (pathJoin path fname) = false := by
  unfold fetchOne
  have hcond : (!(isfile st (pathJoin path fname)) || force) = true := by
    rcases hbranch with hb | hb <;> simp [hb]
  rw [hcond, if_pos rfl]
  rw [fetchFile_badHash _ _ _ _ _ _ _ hnet hbad]
  refine ⟨_, rfl, ?_⟩
  rw [show ∀ (s : FsState) (q : String),
      isfile { s with netCalls := s.netCalls + 1 } q = isfile s q from fun _ _ => rfl]
  exact isfile_prepareDest st (pathJoin path fname)

/-- C2 run at a concrete input: an empty cache, a download whose bytes hash
to the wrong value. -/
theorem fetchOne_integrity_raises_run :
    ∃ st' : FsState,
      fetchOne (fun _ => some "corrupt") (fun _ => "x") "SC4001E0-PSG.edf" "y" "data" false
          { files := [], dirs := [], netCalls := 0 } =
        (st', Except.error FetchErr.integrity) ∧
      isfile st' (pathJoin "data" "SC4001E0-PSG.edf") = false :=
  fetchOne_integrity_raises (fun _ => some "corrupt") (fun _ => "x") "SC4001E0-PSG.edf" "y"
    "data" false { files := [], dirs := [], netCalls := 0 } "corrupt"
    (Or.inl (by rfl)) (by rfl) (by decide)

/-- A temazepam pre-rewrite row with every field present. -/
def tzCompleteRow : TzRowIn :=
  { subject := some 7, age := some 30, sexCode := some 1, drug := some "Temazepam 15mg",
    lightsOff := some "23:00", nightNr := some 1, shaPsg := some "1a2b",
    fnamePsg := some "ST7071J0-PSG.edf", shaHyp := some "3c4d",
    fnameHyp := some "ST7071JM-Hypnogram.edf" }

/-- A temazepam pre-rewrite row missing its age field. -/
def tzIncompleteRow : TzRowIn := { tzCompleteRow with age := none }

/-- A table whose first two rows carry a missing field: `dropna` removes
them, but the subject numbers were assigned from the pre-drop positions. -/
def c5Rows : List TzRowIn := [tzIncompleteRow, tzIncompleteRow, tzCompleteRow]

/-- An all-complete table of the same length. -/
def c5DenseRows : List TzRowIn := [tzCompleteRow, tzCompleteRow, tzCompleteRow]

/-- Follows the spec words of the C5 claim, not the source: a list of subject
numbers is "a dense sequence starting at 0" when its first value is 0 and
each later value repeats its predecessor or exceeds it by one. -/
def denseStep : Int → List Int → Bool
  | _, [] => true
  | c, y :: ys => (y == c || y == c + 1) && denseStep y ys

/-- Follows the spec words of the C5 claim, not the source: see `denseStep`. -/
def denseFromZero : List Int → Bool
  | [] => true
  | x :: xs => (x == 0) && denseStep x xs

/-- C5 counterexample: on `c5Rows` the written subject numbers are `[1]` —
the kept row sits at pre-drop position 2, so the output does not form a
dense sequence starting at 0. -/
theorem temazepamTail_subjects_not_dense :
    (temazepamTail c5Rows).map TzRowOut.subject = [1] ∧
    denseFromZero ((temazepamTail c5Rows).map TzRowOut.subject) = false := by
  decide

lemma tzTail_enumFrom :
    ∀ (rows : List TzRowIn), rows.all tzInComplete = true →
    ∀ k : Nat, (((List.enumFrom k rows).map (fun p => tzTransform p.1 p.2)).filter
        tzOutComplete).map TzRowOut.subject
      = (List.range' k rows.length).map (fun i => ((i : Int) / 2)) := by
  intro rows
  induction rows with
  | nil => intro _ k; rfl
  | cons r rs ih =>
    intro h k
    rw [List.all_cons, Bool.and_eq_true] at h
    have hc : tzOutComplete (tzTransform k r) = true := h.1
    simp only [List.enumFrom_cons, List.map_cons, List.filter_cons, hc, if_true,
      List.length_cons, List.range'_succ]
    rw [ih h.2 (k + 1)]
    rfl

/-- C5 amended: `dropna` removes every row with a missing field, so each
written row is complete; the subject column is reassigned (not preserved
from source) to the pre-drop row position divided by two, computed before
the drop — hence the written subject numbers are the dense sequence 0, 0, 1,
1, ... exactly when no row is dropped, and keep gaps of the pre-drop
numbering otherwise. -/
theorem temazepamTail_complete_renumbered (rows : List TzRowIn) :
    (temazepamTail rows).all tzOutComplete = true ∧
    (rows.all tzInComplete = true →
      (temazepamTail rows).map TzRowOut.subject
        = (List.range rows.length).map (fun i => ((i : Int) / 2))) := by
  constructor
  · unfold temazepamTail
    rw [List.all_eq_true]
    intro r hr
    rw [List.mem_filter] at hr
    exact hr.2
  · intro h
    unfold temazepamTail
    rw [List.range_eq_range']
    exact tzTail_enumFrom rows h 0

/-- C5 amended, run at a concrete input: three complete rows give the
written subject numbers 0, 0, 1. -/
theorem temazepamTail_complete_renumbered_run :
    (temazepamTail c5DenseRows).all tzOutComplete = true ∧
    (c5DenseRows.all tzInComplete = true →
      (temazepamTail c5DenseRows).map TzRowOut.subject
        = (List.range c5DenseRows.length).map (fun i => ((i : Int) / 2))) :=
  temazepamTail_complete_renumbered c5DenseRows

/-- C6: the two variants recode the numeric sex field through opposite
mappings — the age variant sends 1 to female and 2 to male, the temazepam
variant sends 1 to male and 2 to female — and the pipelines keep the two
recoders distinct: `tzTransform` (the temazepam column rewrites) applies
`tzSexRecode`, and every row of `ageTable` carries `ageSexRecode` of the
sex code of the spreadsheet row it was joined to. -/
theorem sexRecode_asymmetry :
    (ageSexRecode 1 = SexLabel.female ∧ ageSexRecode 2 = SexLabel.male) ∧
    (tzSexRecode 1 = SexLabel.male ∧ tzSexRecode 2 = SexLabel.female) ∧
    (ageSexRecode 1 ≠ tzSexRecode 1 ∧ ageSexRecode 2 ≠ tzSexRecode 2) ∧
    (∀ (i : Nat) (r : TzRowIn), (tzTransform i r).sex = r.sexCode.map tzSexRecode) ∧
    (∀ (manifest : List ShaEntry) (sheet : List AgeSheetRow) (r : AgeRecord),
      r ∈ ageTable manifest sheet → ∃ d ∈ sheet, r.sex = ageSexRecode d.sexCode) := by
  refine ⟨by decide, by decide, by decide, fun i r => rfl, ?_⟩
  intro manifest sheet r h
  unfold ageTable at h
  rw [List.mem_flatMap] at h
  obtain ⟨d, hd, hin⟩ := h
  rw [List.mem_map] at hin
  obtain ⟨e, _, hr⟩ := hin
  subst hr
  exact ⟨d, hd, rfl⟩

/-- C7: in both metadata builders the CSV write is the final step of a run
that raised nothing, so a run that surfaces any error — missing pandas, a
failed download, bad data — leaves the previously persisted CSV unchanged. -/
theorem updateRecords_atomic (envT : TzEnv) (prevT : Option (List TzRowOut))
    (envA : AgeEnv) (prevA : Option (List AgeRecord))
    (hT : (updateSleepTemazepamRecords envT prevT).2.2.isSome = true)
    (hA : (updateSleepAgeRecords envA prevA).2.2.isSome = true) :
    (updateSleepTemazepamRecords envT prevT).1 = prevT ∧
    (updateSleepAgeRecords envA prevA).1 = prevA := by
  constructor
  · have hcases : (updateSleepTemazepamRecords envT prevT).1 = prevT ∨
        (updateSleepTemazepamRecords envT prevT).2.2 = none := by
      unfold updateSleepTemazepamRecords
      by_cases hp : envT.pandasInstalled
      · rw [hp]
        simp only [Bool.not_true, Bool.false_eq_true, if_false]
        cases hs : envT.sha1Fetch with
        | none => simp
        | some content =>
          cases hx : envT.xlsFetch with
          | none => simp
          | some xls =>
            cases hr : envT.reshape content xls with
            | none => simp [hr]
            | some rows => simp [hr]
      · rw [Bool.not_eq_true] at hp
        rw [hp]
        simp
    rcases hcases with hc | hc
    · exact hc
    · rw [hc] at hT
      simp at hT
  · have hcases : (updateSleepAgeRecords envA prevA).1 = prevA ∨
        (updateSleepAgeRecords envA prevA).2.2 = none := by
      unfold updateSleepAgeRecords
      by_cases hp : envA.pandasInstalled
      · rw [hp]
        simp only [Bool.not_true, Bool.false_eq_true, if_false]
        cases hs : envA.sha1Fetch with
        | none => simp
        | some content =>
          cases hx : envA.xlsFetch with
          | none => simp
          | some sheet => simp
      · rw [Bool.not_eq_true] at hp
        rw [hp]
        simp
    rcases hcases with hc | hc
    · exact hc
    · rw [hc] at hA
      simp at hA

/-- An environment without pandas, for running C7 and C8. -/
def noPandasTzEnv : TzEnv :=
  { pandasInstalled := false, sha1Fetch := none, xlsFetch := none, reshape := fun _ _ => none }

/-- An environment without pandas, for running C7 and C8 (age variant). -/
def noPandasAgeEnv : AgeEnv :=
  { pandasInstalled := false, sha1Fetch := none, xlsFetch := none }

/-- C7 run at a concrete input: both builders fail on the missing dependency
and the persisted CSVs stay what they were. -/
theorem updateRecords_atomic_run :
    (updateSleepTemazepamRecords noPandasTzEnv (some [])).1 = some [] ∧
    (updateSleepAgeRecords noPandasAgeEnv (some [])).1 = some [] :=
  updateRecords_atomic noPandasTzEnv (some []) noPandasAgeEnv (some []) (by rfl) (by rfl)

/-- C8: with pandas absent both builders stop at the dependency check with
the dedicated error and an empty network trace — no request is issued before
the check succeeds. -/
theorem updateRecords_dependencyFirst (envT : TzEnv) (prevT : Option (List TzRowOut))
    (envA : AgeEnv) (prevA : Option (List AgeRecord))
    (hT : envT.pandasInstalled = false) (hA : envA.pandasInstalled = false) :
    updateSleepTemazepamRecords envT prevT = (prevT, [], some BuildErr.dependencyMissing) ∧
    updateSleepAgeRecords envA prevA = (prevA, [], some BuildErr.dependencyMissing) := by
  unfold updateSleepTemazepamRecords updateSleepAgeRecords
  rw [hT, hA]
  simp

/-- C8 run at a concrete input. -/
theorem updateRecords_dependencyFirst_run :
    updateSleepTemazepamRecords noPandasTzEnv none = (none, [], some BuildErr.dependencyMissing) ∧
    updateSleepAgeRecords noPandasAgeEnv none = (none, [], some BuildErr.dependencyMissing) :=
  updateRecords_dependencyFirst noPandasTzEnv none noPandasAgeEnv none rfl rfl

/-- C9: with no explicit path, no environment override and no persisted
configuration value, `_data_path` returns the physionet-sleep-data
subdirectory of the mne_data default under the home directory. -/
theorem dataPath_default (home : String) :
    dataPath none none none home = home ++ "/mne_data/physionet-sleep-data" := by
  show ((home ++ "/" ++ "mne_data") ++ "/" ++ "physionet-sleep-data") = _
  rw [String.append_assoc, String.append_assoc, String.append_assoc]
  rfl

/-- C9 run at a concrete home directory. -/
theorem dataPath_default_run :
    dataPath none none none "/home/user" = "/home/user" ++ "/mne_data/physionet-sleep-data" :=
  dataPath_default "/home/user"

/-- C10: every row of the age table has a filename that starts with SC, ends
with edf, and whose first six characters are SC4 followed by the two-digit
zero-padded subject number and the night number of that same row — the
6-character id the row was joined on. -/
theorem ageTable_fname_invariant (manifest : List ShaEntry) (sheet : List AgeSheetRow)
    (r : AgeRecord) (h : r ∈ ageTable manifest sheet) :
    strHeadIs r.fname "SC" = true ∧ strTailIs r.fname "edf" = true ∧
    r.fname.take 6 = "SC4" ++ fmt02 r.subject ++ toString r.night := by
  unfold ageTable at h
  rw [List.mem_flatMap] at h
  obtain ⟨d, hd, hin⟩ := h
  rw [List.mem_map] at hin
  obtain ⟨e, he, hr⟩ := hin
  rw [List.mem_filter] at he
  obtain ⟨heMem, heId⟩ := he
  subst hr
  unfold scFilter at heMem
  rw [List.mem_filter, Bool.and_eq_true] at heMem
  have hid : shaId e = ageId d.subject d.night := by rwa [beq_iff_eq] at heId
  exact ⟨heMem.2.1, heMem.2.2, hid⟩

/-- The one-entry manifest for running C10. -/
def c10Manifest : List ShaEntry := [{ sha := "aa11", fname := "SC4012E0-PSG.edf" }]

/-- The one-row spreadsheet for running C10. -/
def c10Sheet : List AgeSheetRow :=
  [{ subject := 1, night := 2, age := 33, sexCode := 1, lightsOff := 0 }]

/-- The age record their join produces, for running C10. -/
def c10Row : AgeRecord :=
  { subject := 1, night := 2, recordType := "PSG", age := 33, sex := SexLabel.female,
    lightsOff := 0, sha := "aa11", fname := "SC4012E0-PSG.edf" }

/-- C10 run at a concrete input. -/
theorem ageTable_fname_invariant_run :
    strHeadIs c10Row.fname "SC" = true ∧ strTailIs c10Row.fname "edf" = true ∧
    c10Row.fname.take 6 = "SC4" ++ fmt02 c10Row.subject ++ toString c10Row.night :=
  ageTable_fname_invariant c10Manifest c10Sheet c10Row (by decide)

end SleepPhysionet
